import Mathlib

/-!
# GW event visualization — verification of the catalog loader, classifier,
filter, aggregator and plot builders

Shallow embedding of the data-transformation core of the GW_event_viz
repository: the catalog loader's shape validation (`loadData` in the
fail-soft script), the mass classifier (the `source_type` snippet of the
data-schema document), the catalog filter (`populateCatalogFilter` change
handler), the stats aggregator (`updateStats`), and the plot builders
(`createPlot`, `createTrace`, `createSpinPlot`, `createTimelinePlot`).

Numbers are modelled as rationals (the JSON snapshot holds decimal
literals; no NaN or Infinity occurs in JSON), and JavaScript `undefined` /
`null` optional fields as `Option`.
-/

/-- Source types produced by the classification snippet of the data-schema
document (`BBH`, `NSBH`, `BNS`). -/
inductive SourceType where
  | BBH
  | NSBH
  | BNS
  deriving DecidableEq, Repr

/-- `NS_THRESHOLD = 3.0` solar masses, from the data-schema classification
snippet. -/
def NS_THRESHOLD : ℚ := 3

/-- The source-classification logic of the data-schema document:
`if m2 < NS_THRESHOLD and m1 < NS_THRESHOLD: "BNS"
 elif m2 < NS_THRESHOLD and m1 > NS_THRESHOLD: "NSBH"
 else: "BBH"`. -/
def classify (m1 m2 : ℚ) : SourceType :=
  if m2 < NS_THRESHOLD ∧ m1 < NS_THRESHOLD then .BNS
  else if m2 < NS_THRESHOLD ∧ m1 > NS_THRESHOLD then .NSBH
  else .BBH

/-- The classification rule as the spec words it (for comparison with
`classify`): both components at least the threshold gives BBH, both below
gives BNS, otherwise NSBH. -/
def classifySpec (m1 m2 : ℚ) : SourceType :=
  if NS_THRESHOLD ≤ m1 ∧ NS_THRESHOLD ≤ m2 then .BBH
  else if m1 < NS_THRESHOLD ∧ m2 < NS_THRESHOLD then .BNS
  else .NSBH

/-- A parsed JSON value, the result of `await response.json()`.
Objects are association lists of fields (keys unique after parsing). -/
inductive Json where
  | null
  | bool (b : Bool)
  | num (q : ℚ)
  | str (s : String)
  | arr (xs : List Json)
  | obj (fields : List (String × Json))

namespace Json

/-- JavaScript property read `v.key`: defined fields of objects only;
`none` models `undefined`. -/
def getField : Json → String → Option Json
  | .obj fields, key => fields.lookup key
  | _, _ => none

/-- JavaScript truthiness of a parsed JSON value (`!data` in the loader):
`null`, `false`, `0` and the empty string are falsy; arrays and objects
are always truthy. -/
def truthy : Json → Bool
  | .null => false
  | .bool b => b
  | .num q => decide (q ≠ 0)
  | .str s => decide (s ≠ "")
  | .arr _ => true
  | .obj _ => true

/-- `Array.isArray`. -/
def isArray : Json → Bool
  | .arr _ => true
  | _ => false

end Json

/-- The spec's description of a well-shaped catalog document: an object
containing an array field for events. -/
def isCatalogShape (data : Json) : Bool :=
  match data with
  | .obj fields =>
      match fields.lookup "events" with
      | some (.arr _) => true
      | _ => false
  | _ => false

/-- The failure taxonomy of the loader; the shape check throws
`Invalid data format`, modelled as `MalformedCatalog`. -/
inductive LoadError where
  | malformedCatalog
  deriving DecidableEq, Repr

/-- The shape validation of the fail-soft loader, from
`if (!data || !Array.isArray(data.events)) throw new Error(...)`:
on success it exposes the events array. -/
def validateCatalog (data : Json) : Except LoadError (List Json) :=
  if !data.truthy then .error .malformedCatalog
  else
    match data.getField "events" with
    | some (.arr events) => .ok events
    | _ => .error .malformedCatalog

/-- The page state after the load attempt: the `catch` branch replaces the
plot area with the fixed non-interactive notice `Failed to load data.`;
otherwise the validated events are handed to the display pipeline. -/
inductive PageState where
  | failureNotice
  | rendered (events : List Json)

/-- The loader pipeline of the fail-soft script: validate, then render;
any validation error is caught and yields only the failure notice, so no
partial rendering happens (rendering calls all come after the check). -/
def loadPage (data : Json) : PageState :=
  match validateCatalog data with
  | .error _ => .failureNotice
  | .ok events => .rendered events

/-- An event record of the catalog snapshot (§3 of the data model): masses
as rationals, optional numeric fields as `Option`, `source_type` kept as a
raw string (the aggregator matches it against the three enumerated values),
`detection_date` a date string or the sentinel `"Unknown"`. -/
structure Event where
  name : String
  m1 : ℚ
  m2 : ℚ
  snr : Option ℚ
  source_type : String
  catalog : String
  detection_date : String
  chi_eff : Option ℚ
  deriving DecidableEq, Repr

/-- The root document (already shape-validated): `updated`, `event_count`,
the `events` array, the optional `all_events` array and the optional
`unique_events` count. -/
structure Snapshot where
  updated : String
  event_count : Nat
  events : List Event
  all_events : Option (List Event)
  unique_events : Option Nat
  deriving DecidableEq, Repr

/-- `allEventsList = data.all_events || data.events` from the loader (a
present array is truthy even when empty, so `getD` is exact). -/
def allEventsList (s : Snapshot) : List Event :=
  s.all_events.getD s.events

/-- The catalog-filter change handler: value `"all"` shows
`allEventsData.events` (the precomputed unique-events sequence); any other
value filters `allEventsList` by exact equality on the `catalog` field. -/
def selectView (s : Snapshot) (tag : String) : List Event :=
  if tag = "all" then s.events
  else (allEventsList s).filter (fun e => e.catalog == tag)

/-- `updateFilterInfo`'s displayed unique count
`allEventsData.unique_events || total`, where the caller passes
`total = allEventsData.event_count`: a missing or zero (falsy)
`unique_events` falls back to `event_count`. -/
def uniqueCountShown (s : Snapshot) : Nat :=
  match s.unique_events with
  | some n => if n = 0 then s.event_count else n
  | none => s.event_count

/-- The four counters written by `updateStats`. -/
structure Stats where
  total : Nat
  bbh : Nat
  nsbh : Nat
  bns : Nat
  deriving DecidableEq, Repr

/-- `updateStats`: total count plus per-type counts by exact
(case-sensitive) string comparison of `source_type` against the three
enumerated values. -/
def updateStats (events : List Event) : Stats :=
  { total := events.length
    bbh := (events.filter (fun e => e.source_type == "BBH")).length
    nsbh := (events.filter (fun e => e.source_type == "NSBH")).length
    bns := (events.filter (fun e => e.source_type == "BNS")).length }

/-- `e.snr || 10`: the marker-size base is the event's `snr` when it is
present and non-zero (the only falsy number in the snapshot is 0; JSON has
no NaN), and 10 otherwise. -/
def snrOrDefault (e : Event) : ℚ :=
  match e.snr with
  | some v => if v = 0 then 10 else v
  | none => 10

/-- `Math.max(8, Math.min(25, e.snr || 10))` from `createTrace`. -/
def markerSize (e : Event) : ℚ :=
  max 8 (min 25 (snrOrDefault e))

/-- A scatter trace built by `createTrace`: legend label, color, and the
per-point arrays (x = m1, y = m2, marker sizes); the event subset the
arrays are mapped from is kept alongside. -/
structure Trace where
  name : String
  color : String
  events : List Event
  x : List ℚ
  y : List ℚ
  sizes : List ℚ
  deriving DecidableEq, Repr

/-- `createTrace(events, name, color)`. -/
def createTrace (events : List Event) (name color : String) : Trace :=
  { name := name
    color := color
    events := events
    x := events.map (fun e => e.m1)
    y := events.map (fun e => e.m2)
    sizes := events.map markerSize }

/-- Legend label of the BBH trace. -/
def bbhLabel : String := "BBH (Binary Black Hole)"

/-- Legend label of the NSBH trace. -/
def nsbhLabel : String := "NSBH (NS-BH)"

/-- Legend label of the BNS trace. -/
def bnsLabel : String := "BNS (Binary NS)"

/-- `createPlot`: one trace per source type, pushed in the fixed order
BBH, NSBH, BNS, each only when its filtered subset is non-empty. -/
def createPlot (events : List Event) : List Trace :=
  let bbhEvents := events.filter (fun e => e.source_type == "BBH")
  let nsbhEvents := events.filter (fun e => e.source_type == "NSBH")
  let bnsEvents := events.filter (fun e => e.source_type == "BNS")
  (if bbhEvents.length > 0 then [createTrace bbhEvents bbhLabel "#9b59b6"] else []) ++
    (if nsbhEvents.length > 0 then [createTrace nsbhEvents nsbhLabel "#e67e22"] else []) ++
    (if bnsEvents.length > 0 then [createTrace bnsEvents bnsLabel "#3498db"] else [])

/-- Result of `createSpinPlot`: either the fixed `No spin data` notice or a
histogram over the collected `chi_eff` values. -/
inductive SpinPlot where
  | noData
  | histogram (values : List ℚ)
  deriving DecidableEq, Repr

/-- `createSpinPlot`: map `chi_eff` over the displayed events, drop `null`
and `undefined` (both modelled by `none`), and render the notice when
nothing remains. -/
def createSpinPlot (events : List Event) : SpinPlot :=
  let values := (events.map (fun e => e.chi_eff)).reduceOption
  if values.isEmpty then .noData else .histogram values

/-- Split a character sequence at every `'-'`, as the hyphen-separated
date format `YYYY-MM-DD` is read. -/
def splitOnDash (cs : List Char) : List (List Char) :=
  match cs with
  | [] => [[]]
  | c :: rest =>
      let r := splitOnDash rest
      if c = '-' then [] :: r
      else
        match r with
        | [] => [[c]]
        | g :: gs => (c :: g) :: gs

/-- Decimal read of a non-empty digit sequence. -/
def digitsToNat? (cs : List Char) : Option Nat :=
  if cs.isEmpty then none
  else if cs.all (fun c => c.isDigit) then
    some (cs.foldl (fun acc c => acc * 10 + (c.toNat - 48)) 0)
  else none

/-- Strict `YYYY-MM-DD` parse of a detection date, as `new Date(s)` reads
the snapshot's date strings; the returned key `y*10000 + m*100 + d` is
order-isomorphic to the epoch time `new Date(s).getTime()` on calendar
dates, so comparisons agree with the source's date subtraction. -/
def parseDate (s : String) : Option Nat :=
  match splitOnDash s.data with
  | [y, m, d] =>
      match digitsToNat? y, digitsToNat? m, digitsToNat? d with
      | some yn, some mn, some dn =>
          if 1 ≤ mn ∧ mn ≤ 12 ∧ 1 ≤ dn ∧ dn ≤ 31 then
            some (yn * 10000 + mn * 100 + dn)
          else none
      | _, _, _ => none
  | _ => none

/-- The timeline's filter predicate
`e.detection_date && e.detection_date !== 'Unknown'`: a record is kept
when its date string is truthy (non-empty) and not the sentinel. -/
def timelineKept (events : List Event) : List Event :=
  events.filter (fun e => !(e.detection_date == "") && !(e.detection_date == "Unknown"))

/-- The sort key of a timeline record, `new Date(e.detection_date)`
(defaulted for unparseable strings, which the kept records never are). -/
def dateKeyD (e : Event) : Nat :=
  (parseDate e.detection_date).getD 0

/-- The timeline comparator
`(a, b) => new Date(a.detection_date) - new Date(b.detection_date)`,
as the ordering relation it induces. -/
def dateLeP (a b : Event) : Prop :=
  dateKeyD a ≤ dateKeyD b

instance : DecidableRel dateLeP :=
  fun a b => inferInstanceAs (Decidable (dateKeyD a ≤ dateKeyD b))

instance : IsTotal Event dateLeP :=
  ⟨fun a b => Nat.le_total (dateKeyD a) (dateKeyD b)⟩

instance : IsTrans Event dateLeP :=
  ⟨fun _ _ _ => Nat.le_trans⟩

/-- The timeline's sorted sequence: filter out unknown dates, then sort by
parsed date. `Array.prototype.sort` is required to be stable, and a stable
sort under a total preorder is unique, so insertion sort models it
exactly. -/
def timelineSorted (events : List Event) : List Event :=
  (timelineKept events).insertionSort dateLeP

/-- The `forEach` loop of `createTimelinePlot`: push each date and the
incremented running count. -/
def timelineDatesTotals : List Event → Nat → List String × List Nat
  | [], _ => ([], [])
  | e :: rest, count =>
      let p := timelineDatesTotals rest (count + 1)
      (e.detection_date :: p.1, (count + 1) :: p.2)

/-- `createTimelinePlot`: the x (dates) and y (cumulative totals) arrays of
the timeline trace. -/
def createTimelinePlot (events : List Event) : List String × List Nat :=
  timelineDatesTotals (timelineSorted events) 0

/-- The rendered display area produced by `displayEvents` for a selected
sequence: stats cards, mass scatter traces, spin plot, timeline arrays. -/
structure DisplayedPage where
  stats : Stats
  massPlot : List Trace
  spinPlot : SpinPlot
  timeline : List String × List Nat
  deriving DecidableEq, Repr

/-- `displayEvents`: the display pipeline over a selected sequence. -/
def displayEvents (events : List Event) : DisplayedPage :=
  { stats := updateStats events
    massPlot := createPlot events
    spinPlot := createSpinPlot events
    timeline := createTimelinePlot events }

/-- The page view after a filter selection: the failure notice exists only
as the load-error state; selection handlers have no failure branch. -/
inductive View where
  | failureNotice
  | display (page : DisplayedPage)
  deriving DecidableEq, Repr

/-- The catalog-filter change handler end to end: select the sequence for
the chosen tag and display it. -/
def renderSelection (s : Snapshot) (tag : String) : View :=
  .display (displayEvents (selectView s tag))

/-- A snapshot passing the loader's validation whose `events` array lists
the same event name twice (two catalog versions), with
`unique_events = 1`: the page never de-duplicates `events`. -/
def dupEventA : Event :=
  { name := "GW200311_115853"
    m1 := 34
    m2 := 27
    snr := some 17
    source_type := "BBH"
    catalog := "GWTC-3-confident"
    detection_date := "2020-03-11"
    chi_eff := none }

/-- A second catalog version of the same event name. -/
def dupEventB : Event :=
  { name := "GW200311_115853"
    m1 := 35
    m2 := 26
    snr := some 18
    source_type := "BBH"
    catalog := "GWTC-2.1-confident"
    detection_date := "2020-03-11"
    chi_eff := some 1 }

/-- A snapshot whose `events` field itself holds the duplicate pair. -/
def dupSnapshot : Snapshot :=
  { updated := "2025-01-01T00:00:00Z"
    event_count := 2
    events := [dupEventA, dupEventB]
    all_events := some [dupEventA, dupEventB]
    unique_events := some 1 }

/-- A concrete event for witnesses: named date, BBH type. -/
def exEvent (nm dt : String) : Event :=
  { name := nm
    m1 := 30
    m2 := 20
    snr := some 12
    source_type := "BBH"
    catalog := "GWTC-3-confident"
    detection_date := dt
    chi_eff := none }

/-- The timeline example of the spec: dates 2023-05-01, Unknown,
2020-01-01, 2015-09-14 in input order. -/
def exampleTimeline : List Event :=
  [exEvent "E1" "2023-05-01", exEvent "E2" "Unknown",
   exEvent "E3" "2020-01-01", exEvent "E4" "2015-09-14"]

theorem validateCatalog_ok_iff (data : Json) :
    (∃ events, validateCatalog data = .ok events) ↔ isCatalogShape data = true := by
  constructor
  · rintro ⟨events, h⟩
    cases data with
    | obj fields =>
        simp only [validateCatalog, Json.truthy, Bool.not_true, Bool.false_eq_true,
          if_false, Json.getField] at h
        simp only [isCatalogShape]
        cases hl : fields.lookup "events" with
        | none => rw [hl] at h; exact absurd h (by simp)
        | some v =>
            rw [hl] at h
            cases v with
            | arr xs => simp
            | null => exact absurd h (by simp)
            | bool b => exact absurd h (by simp)
            | num q => exact absurd h (by simp)
            | str s => exact absurd h (by simp)
            | obj f => exact absurd h (by simp)
    | null => simp [validateCatalog, Json.truthy] at h
    | bool b =>
        cases b with
        | false => simp [validateCatalog, Json.truthy] at h
        | true => simp [validateCatalog, Json.truthy, Json.getField] at h
    | num q =>
        by_cases hq : q = 0
        · simp [validateCatalog, Json.truthy, hq] at h
        · simp [validateCatalog, Json.truthy, hq, Json.getField] at h
    | str s =>
        by_cases hs : s = ""
        · simp [validateCatalog, Json.truthy, hs] at h
        · simp [validateCatalog, Json.truthy, hs, Json.getField] at h
    | arr xs => simp [validateCatalog, Json.truthy, Json.getField] at h
  · intro h
    cases data with
    | obj fields =>
        simp only [isCatalogShape] at h
        cases hl : fields.lookup "events" with
        | none => rw [hl] at h; exact absurd h (by simp)
        | some v =>
            rw [hl] at h
            cases v with
            | arr xs =>
                refine ⟨xs, ?_⟩
                simp [validateCatalog, Json.truthy, Json.getField, hl]
            | null => exact absurd h (by simp)
            | bool b => exact absurd h (by simp)
            | num q => exact absurd h (by simp)
            | str s => exact absurd h (by simp)
            | obj f => exact absurd h (by simp)
    | null => simp [isCatalogShape] at h
    | bool b => simp [isCatalogShape] at h
    | num q => simp [isCatalogShape] at h
    | str s => simp [isCatalogShape] at h
    | arr xs => simp [isCatalogShape] at h

/-- C2: an input document whose top-level shape is not an object containing
an array field for events fails validation with `MalformedCatalog`, and the
caller's catch branch renders only the fixed failure notice: no event is
rendered and nothing escapes the handler (the pipeline is a total function
into the two page states). -/
theorem loader_rejects_malformed (data : Json)
    (h : isCatalogShape data = false) :
    validateCatalog data = .error .malformedCatalog ∧
      loadPage data = .failureNotice := by
  have hne : ¬ ∃ events, validateCatalog data = .ok events := by
    rw [validateCatalog_ok_iff, h]
    simp
  have herr : validateCatalog data = .error .malformedCatalog := by
    cases hv : validateCatalog data with
    | error e => cases e; rfl
    | ok events => exact absurd ⟨events, hv⟩ hne
  exact ⟨herr, by simp [loadPage, herr]⟩

/-- C2 witness: the spec's example `{"events": "not-an-array"}` is rejected
and yields the failure notice. -/
theorem loader_rejects_malformed_witness :
    isCatalogShape (.obj [("events", .str "not-an-array")]) = false ∧
      validateCatalog (.obj [("events", .str "not-an-array")]) =
        .error .malformedCatalog ∧
      loadPage (.obj [("events", .str "not-an-array")]) = .failureNotice :=
  ⟨by decide, loader_rejects_malformed (.obj [("events", .str "not-an-array")]) (by decide)⟩

/-- C1 counterexample: at the boundary input `m1 = 3.0, m2 = 1.4` the code
returns BBH (its NSBH branch tests `m1 > NS_THRESHOLD` strictly), while the
claim's rule (`both >= 3 -> BBH, both < 3 -> BNS, otherwise NSBH`) gives
NSBH. -/
theorem classify_boundary_counterexample :
    classify 3 1.4 = .BBH ∧ classifySpec 3 1.4 = .NSBH := by
  constructor <;> norm_num [classify, classifySpec, NS_THRESHOLD]

/-- C1 amended: `classify` is deterministic and returns exactly one of
BBH/NSBH/BNS, characterized for `0 ≤ m2 ≤ m1` by: both below 3 gives BNS,
`m2 < 3` with `m1` strictly above 3 gives NSBH, and otherwise (`m2 ≥ 3`, or
`m2 < 3` with `m1` exactly 3) BBH; it agrees with the claim's rule except
at `m1 = 3 ∧ m2 < 3`; the four cited examples hold. -/
theorem classify_characterization :
    (∀ m1 m2 : ℚ, 0 ≤ m2 → m2 ≤ m1 →
      ((classify m1 m2 = .BNS ↔ (m1 < NS_THRESHOLD ∧ m2 < NS_THRESHOLD)) ∧
       (classify m1 m2 = .NSBH ↔ (m2 < NS_THRESHOLD ∧ NS_THRESHOLD < m1)) ∧
       (classify m1 m2 = .BBH ↔
         (NS_THRESHOLD ≤ m2 ∨ (m2 < NS_THRESHOLD ∧ m1 = NS_THRESHOLD))) ∧
       (¬(m1 = NS_THRESHOLD ∧ m2 < NS_THRESHOLD) →
         classify m1 m2 = classifySpec m1 m2))) ∧
    classify 36.2 29.1 = .BBH ∧ classify 1.4 1.3 = .BNS ∧
    classify 5 1.4 = .NSBH ∧ classify 3 3 = .BBH := by
  refine ⟨?_, by norm_num [classify, NS_THRESHOLD],
    by norm_num [classify, NS_THRESHOLD], by norm_num [classify, NS_THRESHOLD],
    by norm_num [classify, NS_THRESHOLD]⟩
  intro m1 m2 h0 h21
  simp only [classify, classifySpec, NS_THRESHOLD]
  rcases lt_trichotomy m1 3 with hm1 | hm1 | hm1
  · by_cases hm2 : m2 < 3
    · rw [if_pos ⟨hm2, hm1⟩]
      refine ⟨by simp [hm1, hm2], ?_, ?_, ?_⟩
      · constructor
        · intro h; exact absurd h (by decide)
        · rintro ⟨-, h3⟩; linarith
      · constructor
        · intro h; exact absurd h (by decide)
        · rintro (h3 | ⟨-, he⟩) <;> linarith
      · rintro -
        rw [if_neg (by rintro ⟨h3, -⟩; linarith), if_pos ⟨hm1, hm2⟩]
    · exact absurd (lt_of_le_of_lt h21 hm1) hm2
  · subst hm1
    by_cases hm2 : m2 < 3
    · rw [if_neg (by rintro ⟨-, h⟩; linarith),
        if_neg (by rintro ⟨-, h⟩; linarith)]
      refine ⟨?_, ?_, by simp [hm2], ?_⟩
      · constructor
        · intro h; exact absurd h (by decide)
        · rintro ⟨h, -⟩; linarith
      · constructor
        · intro h; exact absurd h (by decide)
        · rintro ⟨-, h⟩; linarith
      · intro h
        exact absurd ⟨rfl, hm2⟩ h
    · push_neg at hm2
      rw [if_neg (by rintro ⟨h, -⟩; linarith),
        if_neg (by rintro ⟨h, -⟩; linarith)]
      refine ⟨?_, ?_, by simp [hm2], ?_⟩
      · constructor
        · intro h; exact absurd h (by decide)
        · rintro ⟨h, -⟩; linarith
      · constructor
        · intro h; exact absurd h (by decide)
        · rintro ⟨h, -⟩; linarith
      · rintro -
        rw [if_pos ⟨le_refl (3 : ℚ), hm2⟩]
  · by_cases hm2 : m2 < 3
    · rw [if_neg (by rintro ⟨-, h⟩; linarith), if_pos ⟨hm2, hm1⟩]
      refine ⟨?_, by simp [hm2, hm1], ?_, ?_⟩
      · constructor
        · intro h; exact absurd h (by decide)
        · rintro ⟨h, -⟩; linarith
      · constructor
        · intro h; exact absurd h (by decide)
        · rintro (h3 | ⟨-, he⟩) <;> linarith
      · rintro -
        rw [if_neg (by rintro ⟨-, h3⟩; linarith),
          if_neg (by rintro ⟨h3, -⟩; linarith)]
    · push_neg at hm2
      rw [if_neg (by rintro ⟨h, -⟩; linarith),
        if_neg (by rintro ⟨h, -⟩; linarith)]
      refine ⟨?_, ?_, by simp [hm2], ?_⟩
      · constructor
        · intro h; exact absurd h (by decide)
        · rintro ⟨h, -⟩; linarith
      · constructor
        · intro h; exact absurd h (by decide)
        · rintro ⟨h, -⟩; linarith
      · rintro -
        rw [if_pos ⟨le_of_lt hm1, hm2⟩]

/-- C1 amended witness: the characterization applied at the concrete
classified example `classify(5.0, 1.4) = NSBH`. -/
theorem classify_characterization_witness :
    (0 : ℚ) ≤ 1.4 ∧ (1.4 : ℚ) ≤ 5 ∧
      (classify 5 1.4 = .NSBH ↔ ((1.4 : ℚ) < NS_THRESHOLD ∧ NS_THRESHOLD < 5)) :=
  ⟨by norm_num, by norm_num,
    (classify_characterization.1 5 1.4 (by norm_num) (by norm_num)).2.1⟩

/-- Helper: in a list of events whose names are pairwise distinct, each
name matches at most one record, and exactly one when it occurs. -/
theorem filter_name_length_of_nodup {l : List Event}
    (h : (l.map (fun e => e.name)).Nodup) (nm : String) :
    ((l.filter (fun e => e.name == nm)).length ≤ 1) ∧
      (nm ∈ l.map (fun e => e.name) →
        (l.filter (fun e => e.name == nm)).length = 1) := by
  induction l with
  | nil => simp
  | cons x xs ih =>
      simp only [List.map_cons, List.nodup_cons] at h
      obtain ⟨hx, hxs⟩ := h
      by_cases hnm : x.name = nm
      · have hrest : xs.filter (fun e => e.name == nm) = [] := by
          rw [List.filter_eq_nil_iff]
          intro y hy
          simp only [beq_iff_eq]
          intro hyname
          exact hx (hnm ▸ hyname ▸ List.mem_map_of_mem (fun e => e.name) hy)
        rw [List.filter_cons, if_pos (by simp [hnm]), hrest]
        simp
      · rw [List.filter_cons, if_neg (by simp [hnm])]
        refine ⟨(ih hxs).1, ?_⟩
        intro hmem
        rcases List.mem_cons.mp hmem with heq | hmem2
        · exact absurd heq.symm hnm
        · exact (ih hxs).2 hmem2

/-- C3 counterexample: `dupSnapshot` passes the loader's validation but its
`events` array lists the name `GW200311_115853` twice; selecting the
sentinel "all" displays both records verbatim (the page never
de-duplicates), so the displayed sequence does not hold exactly one record
per distinct name, and the displayed total (2) differs from the declared
`unique_events` (1). -/
theorem select_all_counterexample :
    selectView dupSnapshot "all" = [dupEventA, dupEventB] ∧
      dupEventA.name = dupEventB.name ∧ dupEventA ≠ dupEventB ∧
      ¬ ((selectView dupSnapshot "all").map (fun e => e.name)).Nodup ∧
      (updateStats (selectView dupSnapshot "all")).total ≠ uniqueCountShown dupSnapshot :=
  ⟨by decide, by decide, by decide, by decide, by decide⟩

/-- C3 amended: selecting the sentinel "all" returns the snapshot's
precomputed `events` sequence verbatim; when that sequence satisfies the
data model's invariant of one record per name, each distinct name occurs
exactly once, and when moreover the declared `unique_events` equals its
non-zero length, the displayed total equals the declared value. -/
theorem select_all_unique (s : Snapshot)
    (hnodup : (s.events.map (fun e => e.name)).Nodup) :
    selectView s "all" = s.events ∧
      (∀ nm : String,
        ((selectView s "all").filter (fun e => e.name == nm)).length ≤ 1) ∧
      (∀ nm : String, nm ∈ (selectView s "all").map (fun e => e.name) →
        ((selectView s "all").filter (fun e => e.name == nm)).length = 1) ∧
      (s.unique_events = some s.events.length → s.events.length ≠ 0 →
        (updateStats (selectView s "all")).total = uniqueCountShown s) := by
  have hsel : selectView s "all" = s.events := by simp [selectView]
  refine ⟨hsel, ?_, ?_, ?_⟩
  · intro nm
    rw [hsel]
    exact (filter_name_length_of_nodup hnodup nm).1
  · intro nm hmem
    rw [hsel] at hmem ⊢
    exact (filter_name_length_of_nodup hnodup nm).2 hmem
  · intro hu hne
    rw [hsel]
    simp [updateStats, uniqueCountShown, hu, hne]

/-- C3 amended witness: on a single-record snapshot the sentinel returns
the events sequence and the shown count matches. -/
theorem select_all_unique_witness :
    (([dupEventA].map (fun e => e.name)).Nodup) ∧
      selectView
        { updated := "2025-01-01T00:00:00Z"
          event_count := 1
          events := [dupEventA]
          all_events := none
          unique_events := some 1 } "all" = [dupEventA] :=
  ⟨by decide,
    (select_all_unique
      { updated := "2025-01-01T00:00:00Z"
        event_count := 1
        events := [dupEventA]
        all_events := none
        unique_events := some 1 } (by decide)).1⟩

/-- Helper: with pairwise exclusive predicates, the three filtered lengths
never exceed the list length. -/
theorem tri_count_le (p1 p2 p3 : Event → Bool) (l : List Event)
    (h12 : ∀ x, p1 x = true → p2 x = false)
    (h13 : ∀ x, p1 x = true → p3 x = false)
    (h23 : ∀ x, p2 x = true → p3 x = false) :
    (l.filter p1).length + (l.filter p2).length + (l.filter p3).length ≤ l.length := by
  induction l with
  | nil => simp
  | cons x xs ih =>
      simp only [List.filter_cons, List.length_cons]
      by_cases hp1 : p1 x = true
      · rw [if_pos hp1, if_neg (by simp [h12 x hp1]), if_neg (by simp [h13 x hp1])]
        simp only [List.length_cons]
        omega
      · by_cases hp2 : p2 x = true
        · rw [if_neg hp1, if_pos hp2, if_neg (by simp [h23 x hp2])]
          simp only [List.length_cons]
          omega
        · by_cases hp3 : p3 x = true
          · rw [if_neg hp1, if_neg hp2, if_pos hp3]
            simp only [List.length_cons]
            omega
          · rw [if_neg hp1, if_neg hp2, if_neg hp3]
            omega

/-- Helper: with pairwise exclusive predicates, the three filtered lengths
sum to the list length exactly when every element satisfies one of them. -/
theorem tri_count_eq_iff (p1 p2 p3 : Event → Bool) (l : List Event)
    (h12 : ∀ x, p1 x = true → p2 x = false)
    (h13 : ∀ x, p1 x = true → p3 x = false)
    (h23 : ∀ x, p2 x = true → p3 x = false) :
    ((l.filter p1).length + (l.filter p2).length + (l.filter p3).length = l.length) ↔
      ∀ x ∈ l, p1 x = true ∨ p2 x = true ∨ p3 x = true := by
  induction l with
  | nil => simp
  | cons x xs ih =>
      have hle := tri_count_le p1 p2 p3 xs h12 h13 h23
      simp only [List.filter_cons, List.length_cons, List.mem_cons]
      by_cases hp1 : p1 x = true
      · rw [if_pos hp1, if_neg (by simp [h12 x hp1]), if_neg (by simp [h13 x hp1])]
        simp only [List.length_cons]
        constructor
        · intro hsum y hy
          have hsum2 : (xs.filter p1).length + (xs.filter p2).length +
              (xs.filter p3).length = xs.length := by omega
          rcases hy with rfl | hy2
          · exact Or.inl hp1
          · exact (ih.mp hsum2) y hy2
        · intro hall
          have := ih.mpr (fun y hy => hall y (Or.inr hy))
          omega
      · by_cases hp2 : p2 x = true
        · rw [if_neg hp1, if_pos hp2, if_neg (by simp [h23 x hp2])]
          simp only [List.length_cons]
          constructor
          · intro hsum y hy
            have hsum2 : (xs.filter p1).length + (xs.filter p2).length +
                (xs.filter p3).length = xs.length := by omega
            rcases hy with rfl | hy2
            · exact Or.inr (Or.inl hp2)
            · exact (ih.mp hsum2) y hy2
          · intro hall
            have := ih.mpr (fun y hy => hall y (Or.inr hy))
            omega
        · by_cases hp3 : p3 x = true
          · rw [if_neg hp1, if_neg hp2, if_pos hp3]
            simp only [List.length_cons]
            constructor
            · intro hsum y hy
              have hsum2 : (xs.filter p1).length + (xs.filter p2).length +
                  (xs.filter p3).length = xs.length := by omega
              rcases hy with rfl | hy2
              · exact Or.inr (Or.inr hp3)
              · exact (ih.mp hsum2) y hy2
            · intro hall
              have := ih.mpr (fun y hy => hall y (Or.inr hy))
              omega
          · rw [if_neg hp1, if_neg hp2, if_neg hp3]
            constructor
            · intro hsum
              omega
            · intro hall
              rcases hall x (Or.inl rfl) with h | h | h
              · exact absurd h hp1
              · exact absurd h hp2
              · exact absurd h hp3

/-- C4: the aggregator's per-type counts match `source_type` exactly and
case-sensitively against the three enumerated values; they sum to the
total exactly when every record carries one of those values, and a record
with any other `source_type` raises the total by one while leaving all
three per-type counts unchanged. -/
theorem updateStats_partition (events : List Event) (e : Event) :
    ((updateStats events).bbh + (updateStats events).nsbh + (updateStats events).bns
        = (updateStats events).total ↔
      ∀ x ∈ events,
        x.source_type = "BBH" ∨ x.source_type = "NSBH" ∨ x.source_type = "BNS") ∧
    (e.source_type ≠ "BBH" → e.source_type ≠ "NSBH" → e.source_type ≠ "BNS" →
      updateStats (events ++ [e]) =
        { total := (updateStats events).total + 1
          bbh := (updateStats events).bbh
          nsbh := (updateStats events).nsbh
          bns := (updateStats events).bns }) := by
  constructor
  · have hmain := tri_count_eq_iff (fun y => y.source_type == "BBH")
      (fun y => y.source_type == "NSBH") (fun y => y.source_type == "BNS") events
      (fun x hx => by simp_all) (fun x hx => by simp_all) (fun x hx => by simp_all)
    simpa [updateStats] using hmain
  · intro h1 h2 h3
    have b1 : (e.source_type == "BBH") = false := by simp [h1]
    have b2 : (e.source_type == "NSBH") = false := by simp [h2]
    have b3 : (e.source_type == "BNS") = false := by simp [h3]
    simp [updateStats, List.filter_append, List.filter_cons, b1, b2, b3]

/-- C4 witness: appending a record with the unrecognized type `"Burst"`
raises the total but none of the three per-type counts. -/
theorem updateStats_partition_witness :
    updateStats ([dupEventA] ++ [{ dupEventA with source_type := "Burst" }]) =
      { total := (updateStats [dupEventA]).total + 1
        bbh := (updateStats [dupEventA]).bbh
        nsbh := (updateStats [dupEventA]).nsbh
        bns := (updateStats [dupEventA]).bns } :=
  (updateStats_partition [dupEventA] { dupEventA with source_type := "Burst" }).2
    (by decide) (by decide) (by decide)

/-- C6: for a specific (non-sentinel) catalog tag, the change handler
displays exactly the records of the flat all-events sequence whose
`catalog` field equals the tag — membership is equality on `catalog`, the
result is a sublist of the input (relative order preserved), and nothing
outside the input appears. -/
theorem selectView_specific_tag (s : Snapshot) (tag : String) (h : tag ≠ "all") :
    selectView s tag = (allEventsList s).filter (fun e => e.catalog == tag) ∧
      (∀ e : Event, e ∈ selectView s tag ↔ e ∈ allEventsList s ∧ e.catalog = tag) ∧
      (selectView s tag).Sublist (allEventsList s) := by
  refine ⟨by simp [selectView, h], ?_, ?_⟩
  · intro e
    simp [selectView, h, List.mem_filter]
  · rw [selectView, if_neg h]
    exact List.filter_sublist _

/-- C6 witness: filtering `dupSnapshot` by the tag `GWTC-3-confident`
keeps exactly its first record. -/
theorem selectView_specific_tag_witness :
    "GWTC-3-confident" ≠ "all" ∧
      selectView dupSnapshot "GWTC-3-confident" =
        (allEventsList dupSnapshot).filter (fun e => e.catalog == "GWTC-3-confident") :=
  ⟨by decide, (selectView_specific_tag dupSnapshot "GWTC-3-confident" (by decide)).1⟩

/-- Helper: the `forEach` loop returns the dates in order paired with the
cumulative counts `c+1 .. c+n`. -/
theorem timelineDatesTotals_eq (l : List Event) (c : Nat) :
    timelineDatesTotals l c =
      (l.map (fun e => e.detection_date), List.range' (c + 1) l.length) := by
  induction l generalizing c with
  | nil => simp [timelineDatesTotals]
  | cons e rest ih => simp [timelineDatesTotals, ih, List.range'_succ]

/-- Helper: the empty string does not parse as a date. -/
theorem parseDate_empty : parseDate "" = none := rfl

/-- C5: the timeline excludes every record whose `detection_date` is the
sentinel "Unknown"; provided every remaining date parses as a calendar
date, the kept records are a permutation of the non-Unknown records sorted
ascending by parsed date, ties (equal dates) stay in input order, and the
plot pairs the sorted dates with cumulative counts 1..n; on the spec's
example the dates come out 2015-09-14, 2020-01-01, 2023-05-01 with totals
1, 2, 3. -/
theorem timeline_spec :
    (∀ events : List Event,
      (∀ e ∈ events, e.detection_date ≠ "Unknown" → (parseDate e.detection_date).isSome) →
      ((∀ e ∈ timelineSorted events, e.detection_date ≠ "Unknown") ∧
       (timelineSorted events).Perm
         (events.filter (fun e => !(e.detection_date == "Unknown"))) ∧
       (timelineSorted events).Pairwise dateLeP ∧
       (∀ a b : Event, ([a, b] : List Event).Sublist events →
         dateKeyD a = dateKeyD b →
         a.detection_date ≠ "Unknown" → b.detection_date ≠ "Unknown" →
         ([a, b] : List Event).Sublist (timelineSorted events)) ∧
       createTimelinePlot events =
         ((timelineSorted events).map (fun e => e.detection_date),
          List.range' 1 (timelineSorted events).length))) ∧
    createTimelinePlot exampleTimeline =
      (["2015-09-14", "2020-01-01", "2023-05-01"], [1, 2, 3]) := by
  constructor
  · intro events h
    have hne_of_some : ∀ e ∈ events, e.detection_date ≠ "Unknown" →
        e.detection_date ≠ "" := by
      intro e he hu h0
      have hs := h e he hu
      rw [h0, parseDate_empty] at hs
      simp at hs
    have hkeep : timelineKept events =
        events.filter (fun e => !(e.detection_date == "Unknown")) := by
      apply List.filter_congr
      intro x hx
      by_cases hu : x.detection_date = "Unknown"
      · simp [hu]
      · have h0 := hne_of_some x hx hu
        simp [hu, h0]
    refine ⟨?_, ?_, ?_, ?_, ?_⟩
    · intro e he
      rw [timelineSorted, List.mem_insertionSort, timelineKept, List.mem_filter] at he
      intro hu
      rw [hu] at he
      simp at he
    · rw [timelineSorted, hkeep]
      exact List.perm_insertionSort dateLeP _
    · rw [timelineSorted]
      exact List.sorted_insertionSort dateLeP _
    · intro a b hab hkey ha hb
      have hmema : a ∈ events := hab.subset (by simp)
      have hmemb : b ∈ events := hab.subset (by simp)
      have hane := hne_of_some a hmema ha
      have hbne := hne_of_some b hmemb hb
      have hsub : ([a, b] : List Event).Sublist (timelineKept events) := by
        have hf := hab.filter
          (fun e => !(e.detection_date == "") && !(e.detection_date == "Unknown"))
        rwa [show List.filter
            (fun e => !(e.detection_date == "") && !(e.detection_date == "Unknown"))
            [a, b] = [a, b] from by simp [ha, hb, hane, hbne]] at hf
      rw [timelineSorted]
      exact List.pair_sublist_insertionSort (le_of_eq (by rw [hkey])) hsub
    · rw [createTimelinePlot, timelineDatesTotals_eq]
  · decide

/-- C5 witness: on the spec's example every non-Unknown date parses, and
the sorted timeline contains no Unknown-dated record. -/
theorem timeline_spec_witness :
    (∀ e ∈ exampleTimeline,
      e.detection_date ≠ "Unknown" → (parseDate e.detection_date).isSome) ∧
      (∀ e ∈ timelineSorted exampleTimeline, e.detection_date ≠ "Unknown") :=
  ⟨by decide, (timeline_spec.1 exampleTimeline (by decide)).1⟩

/-- C7: every downstream operation over validated data is total: the
classifier always lands in one of the three source types, and the
selection-and-display pipeline always produces a rendered page built from
the aggregator, the mass plot, the spin plot and the timeline — never the
failure notice, which only the loader can produce. -/
theorem downstream_ops_total :
    (∀ m1 m2 : ℚ,
      classify m1 m2 = .BBH ∨ classify m1 m2 = .NSBH ∨ classify m1 m2 = .BNS) ∧
    (∀ (s : Snapshot) (tag : String),
      renderSelection s tag ≠ View.failureNotice ∧
      renderSelection s tag =
        .display
          { stats := updateStats (selectView s tag)
            massPlot := createPlot (selectView s tag)
            spinPlot := createSpinPlot (selectView s tag)
            timeline := createTimelinePlot (selectView s tag) }) := by
  refine ⟨?_, fun s tag => ⟨by simp [renderSelection], rfl⟩⟩
  intro m1 m2
  unfold classify
  split_ifs <;> simp

/-- Helper: membership in the trace list built by `createPlot`: exactly
one trace per non-empty per-type subset, each built by `createTrace`. -/
theorem mem_createPlot {events : List Event} {tr : Trace} :
    tr ∈ createPlot events ↔
      ((events.filter (fun e => e.source_type == "BBH")) ≠ [] ∧
        tr = createTrace (events.filter (fun e => e.source_type == "BBH"))
          bbhLabel "#9b59b6") ∨
      ((events.filter (fun e => e.source_type == "NSBH")) ≠ [] ∧
        tr = createTrace (events.filter (fun e => e.source_type == "NSBH"))
          nsbhLabel "#e67e22") ∨
      ((events.filter (fun e => e.source_type == "BNS")) ≠ [] ∧
        tr = createTrace (events.filter (fun e => e.source_type == "BNS"))
          bnsLabel "#3498db") := by
  by_cases h1 : events.filter (fun e => e.source_type == "BBH") = [] <;>
    by_cases h2 : events.filter (fun e => e.source_type == "NSBH") = [] <;>
      by_cases h3 : events.filter (fun e => e.source_type == "BNS") = [] <;>
        simp [createPlot, h1, h2, h3, List.length_pos]

/-- C8: the mass scatter partitions the displayed events by source type: a
trace with a type's legend label is present exactly when some displayed
event has that type; a trace with a type's label carries exactly the
events of that type in input order; every plotted event comes from the
displayed sequence; and an event with an unrecognized `source_type` lies
in no trace. -/
theorem createPlot_traces (events : List Event) :
    ((∃ tr ∈ createPlot events, tr.name = bbhLabel) ↔
        (events.filter (fun e => e.source_type == "BBH")) ≠ []) ∧
    ((∃ tr ∈ createPlot events, tr.name = nsbhLabel) ↔
        (events.filter (fun e => e.source_type == "NSBH")) ≠ []) ∧
    ((∃ tr ∈ createPlot events, tr.name = bnsLabel) ↔
        (events.filter (fun e => e.source_type == "BNS")) ≠ []) ∧
    (∀ tr ∈ createPlot events, tr.name = bbhLabel →
      tr.events = events.filter (fun e => e.source_type == "BBH")) ∧
    (∀ tr ∈ createPlot events, tr.name = nsbhLabel →
      tr.events = events.filter (fun e => e.source_type == "NSBH")) ∧
    (∀ tr ∈ createPlot events, tr.name = bnsLabel →
      tr.events = events.filter (fun e => e.source_type == "BNS")) ∧
    (∀ tr ∈ createPlot events, ∀ e ∈ tr.events, e ∈ events) ∧
    (∀ e : Event,
      e.source_type ≠ "BBH" → e.source_type ≠ "NSBH" → e.source_type ≠ "BNS" →
      ∀ tr ∈ createPlot events, e ∉ tr.events) := by
  refine ⟨?_, ?_, ?_, ?_, ?_, ?_, ?_, ?_⟩
  · constructor
    · rintro ⟨tr, htr, hname⟩
      rcases mem_createPlot.mp htr with ⟨hne, rfl⟩ | ⟨hne, rfl⟩ | ⟨hne, rfl⟩
      · exact hne
      · exact absurd hname (by simp [createTrace, bbhLabel, nsbhLabel, bnsLabel])
      · exact absurd hname (by simp [createTrace, bbhLabel, nsbhLabel, bnsLabel])
    · intro hne
      exact ⟨createTrace (events.filter (fun e => e.source_type == "BBH"))
          bbhLabel "#9b59b6",
        mem_createPlot.mpr (Or.inl ⟨hne, rfl⟩), rfl⟩
  · constructor
    · rintro ⟨tr, htr, hname⟩
      rcases mem_createPlot.mp htr with ⟨hne, rfl⟩ | ⟨hne, rfl⟩ | ⟨hne, rfl⟩
      · exact absurd hname (by simp [createTrace, bbhLabel, nsbhLabel, bnsLabel])
      · exact hne
      · exact absurd hname (by simp [createTrace, bbhLabel, nsbhLabel, bnsLabel])
    · intro hne
      exact ⟨createTrace (events.filter (fun e => e.source_type == "NSBH"))
          nsbhLabel "#e67e22",
        mem_createPlot.mpr (Or.inr (Or.inl ⟨hne, rfl⟩)), rfl⟩
  · constructor
    · rintro ⟨tr, htr, hname⟩
      rcases mem_createPlot.mp htr with ⟨hne, rfl⟩ | ⟨hne, rfl⟩ | ⟨hne, rfl⟩
      · exact absurd hname (by simp [createTrace, bbhLabel, nsbhLabel, bnsLabel])
      · exact absurd hname (by simp [createTrace, bbhLabel, nsbhLabel, bnsLabel])
      · exact hne
    · intro hne
      exact ⟨createTrace (events.filter (fun e => e.source_type == "BNS"))
          bnsLabel "#3498db",
        mem_createPlot.mpr (Or.inr (Or.inr ⟨hne, rfl⟩)), rfl⟩
  · intro tr htr hname
    rcases mem_createPlot.mp htr with ⟨hne, rfl⟩ | ⟨hne, rfl⟩ | ⟨hne, rfl⟩
    · rfl
    · exact absurd hname (by simp [createTrace, bbhLabel, nsbhLabel, bnsLabel])
    · exact absurd hname (by simp [createTrace, bbhLabel, nsbhLabel, bnsLabel])
  · intro tr htr hname
    rcases mem_createPlot.mp htr with ⟨hne, rfl⟩ | ⟨hne, rfl⟩ | ⟨hne, rfl⟩
    · exact absurd hname (by simp [createTrace, bbhLabel, nsbhLabel, bnsLabel])
    · rfl
    · exact absurd hname (by simp [createTrace, bbhLabel, nsbhLabel, bnsLabel])
  · intro tr htr hname
    rcases mem_createPlot.mp htr with ⟨hne, rfl⟩ | ⟨hne, rfl⟩ | ⟨hne, rfl⟩
    · exact absurd hname (by simp [createTrace, bbhLabel, nsbhLabel, bnsLabel])
    · exact absurd hname (by simp [createTrace, bbhLabel, nsbhLabel, bnsLabel])
    · rfl
  · intro tr htr e he
    rcases mem_createPlot.mp htr with ⟨hne, rfl⟩ | ⟨hne, rfl⟩ | ⟨hne, rfl⟩ <;>
      exact (List.mem_filter.mp he).1
  · intro e h1 h2 h3 tr htr hmem
    rcases mem_createPlot.mp htr with ⟨hne, rfl⟩ | ⟨hne, rfl⟩ | ⟨hne, rfl⟩
    · exact h1 (by simpa using (List.mem_filter.mp hmem).2)
    · exact h2 (by simpa using (List.mem_filter.mp hmem).2)
    · exact h3 (by simpa using (List.mem_filter.mp hmem).2)

/-- C8 witness: an event of the unrecognized type `"Burst"` lies in no
trace of the plot over `[dupEventA]`, whose single trace is the BBH one. -/
theorem createPlot_traces_witness :
    ({ dupEventA with source_type := "Burst" } : Event) ∉
      (createTrace [dupEventA] bbhLabel "#9b59b6").events :=
  (createPlot_traces [dupEventA]).2.2.2.2.2.2.2
    { dupEventA with source_type := "Burst" } (by decide) (by decide) (by decide)
    (createTrace [dupEventA] bbhLabel "#9b59b6") (by decide)

/-- C9: the marker size of every event equals
`max(8, min(25, s))` with `s` the `snr` when present and non-zero and 10
otherwise, and therefore always lies in the closed interval [8, 25]. -/
theorem markerSize_bounds (e : Event) :
    markerSize e = max 8 (min 25 (snrOrDefault e)) ∧
      (e.snr = none → snrOrDefault e = 10) ∧
      (e.snr = some 0 → snrOrDefault e = 10) ∧
      (∀ v : ℚ, e.snr = some v → v ≠ 0 → snrOrDefault e = v) ∧
      8 ≤ markerSize e ∧ markerSize e ≤ 25 := by
  refine ⟨rfl, ?_, ?_, ?_, le_max_left 8 _, max_le (by norm_num) (min_le_left 25 _)⟩
  · intro h
    simp [snrOrDefault, h]
  · intro h
    simp [snrOrDefault, h]
  · intro v h hv
    simp [snrOrDefault, h, hv]

/-- C9 witness: `dupEventA` has the present non-zero snr 17, which is its
effective size base. -/
theorem markerSize_bounds_witness :
    dupEventA.snr = some 17 ∧ (17 : ℚ) ≠ 0 ∧ snrOrDefault dupEventA = 17 :=
  ⟨rfl, by norm_num, (markerSize_bounds dupEventA).2.2.2.1 17 rfl (by norm_num)⟩

/-- Helper: collecting the present `chi_eff` values equals filtering the
events with a present value and reading it off, in input order. -/
theorem chiValues_eq (events : List Event) :
    (events.map (fun e => e.chi_eff)).reduceOption =
      (events.filter (fun e => e.chi_eff.isSome)).map (fun e => e.chi_eff.getD 0) := by
  induction events with
  | nil => simp
  | cons e rest ih =>
      cases h : e.chi_eff with
      | none =>
          simp only [List.map_cons, h, List.reduceOption_cons_of_none, ih,
            List.filter_cons]
          simp [h]
      | some v =>
          simp only [List.map_cons, h, List.reduceOption_cons_of_some, ih,
            List.filter_cons]
          simp [h]

/-- Helper: the collected `chi_eff` values are empty exactly when no
displayed event has one. -/
theorem chiValues_empty_iff (events : List Event) :
    ((events.map (fun e => e.chi_eff)).reduceOption = []) ↔
      ∀ e ∈ events, e.chi_eff = none := by
  induction events with
  | nil => simp
  | cons e rest ih =>
      cases h : e.chi_eff with
      | none =>
          simp [List.reduceOption_cons_of_none, h, ih]
      | some v =>
          simp [List.reduceOption_cons_of_some, h]

/-- C10: the effective-spin view renders the fixed no-data notice exactly
when no displayed event has a present `chi_eff`; otherwise its histogram
input is exactly the `chi_eff` values of the events that have one, in
input order. -/
theorem createSpinPlot_spec (events : List Event) :
    (createSpinPlot events = .noData ↔ ∀ e ∈ events, e.chi_eff = none) ∧
      ((∃ e ∈ events, e.chi_eff.isSome) →
        createSpinPlot events =
          .histogram ((events.filter (fun e => e.chi_eff.isSome)).map
            (fun e => e.chi_eff.getD 0))) := by
  by_cases hemp : (events.map (fun e => e.chi_eff)).reduceOption = []
  · constructor
    · rw [createSpinPlot]
      simp only [List.isEmpty_iff, hemp, if_pos rfl]
      exact iff_of_true rfl ((chiValues_empty_iff events).mp hemp)
    · rintro ⟨e, he, hsome⟩
      have := (chiValues_empty_iff events).mp hemp e he
      rw [this] at hsome
      simp at hsome
  · constructor
    · rw [createSpinPlot]
      simp only [List.isEmpty_iff]
      rw [if_neg hemp]
      constructor
      · intro h
        exact absurd h (by simp)
      · intro hall
        exact absurd ((chiValues_empty_iff events).mpr hall) hemp
    · intro hex
      rw [createSpinPlot]
      simp only [List.isEmpty_iff]
      rw [if_neg hemp, chiValues_eq]

/-- C10 witness: `dupEventB` carries `chi_eff = 1`, so the spin view over
`[dupEventB]` is the one-value histogram. -/
theorem createSpinPlot_spec_witness :
    (∃ e ∈ [dupEventB], e.chi_eff.isSome) ∧
      createSpinPlot [dupEventB] =
        .histogram (([dupEventB].filter (fun e => e.chi_eff.isSome)).map
          (fun e => e.chi_eff.getD 0)) :=
  ⟨⟨dupEventB, by decide, by decide⟩,
    (createSpinPlot_spec [dupEventB]).2 ⟨dupEventB, by decide, by decide⟩⟩

/-- C7 witness: a concrete selection renders a page, never the failure
notice. -/
theorem downstream_ops_total_witness :
    renderSelection dupSnapshot "all" ≠ View.failureNotice :=
  (downstream_ops_total.2 dupSnapshot "all").1
